import Mathlib

/-!
Verification development for `src/mmos_linter.py`, a markdown style linter
following the Microsoft Manual of Style.  The linter's data model and check
functions are shallowly embedded here: a physical line of the input file is a
`List Char` (Python `str`), every fixed regular expression of the source is
hand-compiled to an executable matcher over such lists, and the Python
`re.finditer` left-to-right non-overlapping scan is `reScan`.  Character
classes (`\w`, `\s`, case folding) are embedded at ASCII precision, which is
exact for every string the source's catalogs and the claims mention.
-/

namespace MMOS

/-- A physical line of the input file: Python `str` as a list of characters. -/
abbrev Line := List Char

/-- `Severity` enumeration of the source (`ERROR`, `WARNING`, `INFO`). -/
inductive Severity where
  | error
  | warning
  | info
deriving DecidableEq, Repr

/-- `severity_levels` of `main`: `{'error': 3, 'warning': 2, 'info': 1}`. -/
def Severity.level : Severity → Nat
  | .error => 3
  | .warning => 2
  | .info => 1

/-- The `LintIssue` dataclass.  `column` is an `Int` because
`check_links_microsoft` stores `match.start() - 10`, which can be negative. -/
structure LintIssue where
  line_number : Nat
  column : Int
  severity : Severity
  rule : String
  message : String
  line_content : Line
  suggestion : String
deriving DecidableEq, Repr

/-- An issue as a per-line check produces it, before the 1-based line number
is attached by the iteration `for i, line in enumerate(lines, 1)`. -/
structure PreIssue where
  column : Int
  severity : Severity
  rule : String
  message : String
  line_content : Line
  suggestion : String
deriving DecidableEq, Repr

/-- Attach the 1-based line number. -/
def PreIssue.toIssue (p : PreIssue) (n : Nat) : LintIssue :=
  ⟨n, p.column, p.severity, p.rule, p.message, p.line_content, p.suggestion⟩

/-! ## Character classes and string helpers (ASCII precision) -/

/-- Python regex `\w` at ASCII precision: `[A-Za-z0-9_]`. -/
def isWordChar (c : Char) : Bool := c.isAlphanum || c == '_'

/-- Python regex `\s` / `str.isspace` at ASCII precision. -/
def isSpaceChar (c : Char) : Bool :=
  c == ' ' || c == '\t' || c == '\n' || c == '\r' || c == '\x0b' || c == '\x0c'

/-- Python `str.lower` at ASCII precision. -/
def lower (s : Line) : Line := s.map Char.toLower

/-- Index of the first occurrence of `pat` as a contiguous sublist of `s`
(Python `str.find` / the index located by `in` plus `str.index`). -/
def firstOccur (pat : Line) : Line → Option Nat
  | [] => if pat.isEmpty then some 0 else none
  | c :: rest =>
    if pat.isPrefixOf (c :: rest) then some 0
    else (firstOccur pat rest).map (· + 1)

/-- Length of the run of characters satisfying `keep` starting at `p`. -/
def runLen (keep : Char → Bool) (s : Line) (p : Nat) : Nat :=
  ((s.drop p).takeWhile keep).length

/-- Maximal runs of characters satisfying `keep`, in order (the accumulator
holds the current run reversed).  With `isWordChar` this is Python
`re.findall(r'\b\w+\b', s)`; with `not isSpaceChar` it is `str.split()`. -/
def runsByAux (keep : Char → Bool) : Line → Line → List Line
  | [], acc => if acc.isEmpty then [] else [acc.reverse]
  | c :: rest, acc =>
    if keep c then runsByAux keep rest (c :: acc)
    else if acc.isEmpty then runsByAux keep rest []
    else acc.reverse :: runsByAux keep rest []

/-- Maximal runs of characters satisfying `keep`. -/
def runsBy (keep : Char → Bool) (s : Line) : List Line := runsByAux keep s []

/-- Python `str.split()`: maximal non-whitespace runs. -/
def splitWs (s : Line) : List Line := runsBy (fun c => !isSpaceChar c) s

/-- Python `str.strip()`. -/
def strip (s : Line) : Line :=
  ((s.dropWhile isSpaceChar).reverse.dropWhile isSpaceChar).reverse

/-- Python `str.rstrip()`. -/
def rstrip (s : Line) : Line := (s.reverse.dropWhile isSpaceChar).reverse

/-- Python `str.rstrip(chars)`: strip any of `cs` from the right. -/
def rstripChars (cs : Line) (s : Line) : Line :=
  (s.reverse.dropWhile (fun c => cs.contains c)).reverse

/-- The character of `s` at `p`, with `' '` (a non-word, whitespace character)
standing for "past the end". -/
def charAt (s : Line) (p : Nat) : Char := s.getD p ' '

/-- Regex `\b` immediately before position `p`, for a pattern whose first
character is a word character: start of string or a non-word character at
`p - 1`. -/
def boundaryBefore (s : Line) (p : Nat) : Bool :=
  p == 0 || !isWordChar (charAt s (p - 1))

/-- Regex `\b` immediately after position `e`, for a pattern whose last
character is a word character: end of string or a non-word character at `e`. -/
def boundaryAfter (s : Line) (e : Nat) : Bool := !isWordChar (charAt s e)

/-- `re.finditer`: left-to-right, non-overlapping.  `f p` is the hand-compiled
attempt of the pattern at position `p`, returning the match length and a
payload; after a match the scan resumes at its end, after a failure at the next
position.  `fuel` bounds the iteration count (every pattern here has positive
match length, so `n + 1` fuel covers positions `0..n`). -/
def reScan (f : Nat → Option (Nat × α)) : Nat → Nat → List (Nat × Nat × α)
  | _, 0 => []
  | p, fuel + 1 =>
    match f p with
    | some (len, a) => (p, len, a) :: reScan f (p + max len 1) fuel
    | none => reScan f (p + 1) fuel

/-- All matches of a compiled pattern over a line of length `n`. -/
def reAll (f : Nat → Option (Nat × α)) (n : Nat) : List (Nat × Nat × α) :=
  reScan f 0 (n + 1)

/-- `re.search`: the first match's start position and payload. -/
def reFirst (f : Nat → Option (Nat × α)) (n : Nat) : Option (Nat × Nat × α) :=
  (reAll f n).head?

/-! ## Rule catalog (`init_style_rules`) -/

/-- `self.forbidden_phrases`.  The source's entry `"shall": "must" or "will"`
is a Python expression evaluating to `"must"` (`or` returns its first truthy
operand); likewise `"may or may not": "might"`. -/
def forbidden_phrases : List (String × String) := [
  ("please note", "Note:"), ("please remember", "Remember:"),
  ("in order to", "to"), ("it is recommended", "we recommend"),
  ("utilize", "use"), ("terminate", "end"), ("initiate", "start"),
  ("leverage", "use"), ("click on", "select"), ("simply", ""), ("just", ""),
  ("easy", ""), ("easily", ""), ("obviously", ""), ("clearly", ""),
  ("basically", ""), ("actually", ""), ("very", ""), ("via", "through"),
  ("e.g.", "for example"), ("i.e.", "that is"), ("etc.", "and so on"),
  ("as well as", "and"), ("shall", "must"), ("may or may not", "might"),
  ("in the event that", "if"), ("at this point in time", "now"),
  ("for the purpose of", "to"), ("due to the fact that", "because")]

/-- `self.contractions`. -/
def contractions : List String := [
  "don't", "won't", "can't", "shouldn't", "wouldn't",
  "couldn't", "isn't", "aren't", "wasn't", "weren't",
  "haven't", "hasn't", "hadn't", "it's", "that's",
  "there's", "here's", "what's", "who's", "they're"]

/-- The `expanded` map inside `check_contractions`. -/
def expandedMap : List (String × String) := [
  ("don't", "do not"), ("won't", "will not"), ("can't", "cannot"),
  ("shouldn't", "should not"), ("wouldn't", "would not"),
  ("couldn't", "could not"), ("isn't", "is not"), ("aren't", "are not"),
  ("wasn't", "was not"), ("weren't", "were not"), ("haven't", "have not"),
  ("hasn't", "has not"), ("hadn't", "had not"), ("it's", "it is"),
  ("that's", "that is"), ("there's", "there is"), ("here's", "here is"),
  ("what's", "what is"), ("who's", "who is"), ("they're", "they are")]

/-- `self.latin_abbrev`. -/
def latin_abbrev : List (String × String) := [
  ("e.g.", "for example"), ("i.e.", "that is"), ("etc.", "and so on"),
  ("et al.", "and others"), ("via", "through"), ("vs.", "versus"),
  ("cf.", "compare")]

/-- `self.preferred_terms`.  The `or` expressions of the source evaluate to
their first operand: `"grayed": "dimmed"`, `"hit": "press"`,
`"type in": "enter"`, `"box": "dialog box"`. -/
def preferred_terms : List (String × String) := [
  ("webpage", "web page"), ("web site", "website"), ("internet", "Internet"),
  ("email", "email"), ("log in", "sign in"), ("login", "sign-in"),
  ("log on", "sign in"), ("logon", "sign-in"), ("logout", "sign out"),
  ("username", "user name"), ("wifi", "Wi-Fi"), ("backend", "back end"),
  ("frontend", "front end"), ("enduser", "end user"),
  ("file name", "filename"), ("check box", "checkbox"),
  ("double click", "double-click"), ("right click", "right-click"),
  ("grayed", "dimmed"), ("grayed out", "unavailable"), ("hit", "press"),
  ("type in", "enter"), ("box", "dialog box"), ("deselect", "clear"),
  ("uncheck", "clear")]

/-- `self.gendered_terms`.  The `or` expressions evaluate to their first
operand: `"mankind": "people"`, `"manmade": "synthetic"`,
`"man-hours": "person-hours"`. -/
def gendered_terms : List (String × String) := [
  ("he", "they"), ("she", "they"), ("his", "their"), ("her", "their"),
  ("him", "them"), ("himself", "themselves"), ("herself", "themselves"),
  ("mankind", "people"), ("manmade", "synthetic"),
  ("man-hours", "person-hours")]

/-- The `problematic_terms` map inside `check_inclusive_language`. -/
def problematic_terms : List (String × String) := [
  ("blacklist", "blocklist or denylist"), ("whitelist", "allowlist or safelist"),
  ("master", "primary or main"), ("slave", "secondary or replica"),
  ("native", "built-in or core"), ("grandfathered", "legacy"),
  ("dummy", "placeholder or sample"),
  ("sanity check", "consistency check or validation"),
  ("crazy", "unexpected or surprising"), ("insane", "extreme or intensive"),
  ("cripple", "disable or limit"), ("blind", "without knowledge of or hidden"),
  ("man-in-the-middle", "machine-in-the-middle or interceptor")]

/-! ## Context tracker -/

/-- The fence test of `is_in_code_block`: `re.match(r'^```|^~~~', line)`.
`re.match` anchors at the very start of the string, so a line opens or closes
a fence exactly when its first three characters are backticks or tildes —
leading whitespace is NOT skipped. -/
def isFence (l : Line) : Bool :=
  ("```".data).isPrefixOf l || ("~~~".data).isPrefixOf l

/-- `MicrosoftStyleLinter.is_in_code_block`: toggle over the fence-marker
lines strictly before `line_index`, starting from `false`. -/
def is_in_code_block (lines : List Line) (line_index : Nat) : Bool :=
  (lines.take line_index).foldl (fun b l => if isFence l then !b else b) false

/-- Modelled from the spec's words for claim C1 only: a fence marker "ignoring
leading whitespace ... begins with three or more backticks or three or more
tildes".  Compared against the source's `isFence`, which does not ignore
leading whitespace. -/
def specFenceMarker (l : Line) : Bool := isFence (l.dropWhile isSpaceChar)

theorem foldl_toggle_parity (l : List Line) (b : Bool) :
    l.foldl (fun b l => if isFence l then !b else b) b
      = (b != decide (l.countP isFence % 2 = 1)) := by
  induction l generalizing b with
  | nil => simp
  | cons x xs ih =>
    simp only [List.foldl_cons, List.countP_cons, ih]
    by_cases h : isFence x = true
    · simp only [h, if_pos rfl]
      rcases Nat.even_or_odd (xs.countP isFence) with he | ho
      · have h1 : xs.countP isFence % 2 = 0 := Nat.even_iff.mp he
        have h2 : (xs.countP isFence + 1) % 2 = 1 := by omega
        simp [h1, h2]
      · have h1 : xs.countP isFence % 2 = 1 := Nat.odd_iff.mp ho
        have h2 : (xs.countP isFence + 1) % 2 = 0 := by omega
        simp [h1, h2]
    · simp [h]

/-- The context tracker reports "inside code" exactly when an odd number of
fence-marker lines (in the source's sense) precede the line. -/
theorem is_in_code_block_iff_odd (lines : List Line) (k : Nat) :
    is_in_code_block lines k = true
      ↔ (lines.take k).countP isFence % 2 = 1 := by
  unfold is_in_code_block
  rw [foldl_toggle_parity]
  cases h : decide ((lines.take k).countP isFence % 2 = 1) with
  | false => simp_all
  | true => simp_all

/-! ## Per-line check bodies

Each `…Line` function is the body of the corresponding `check_…` loop for one
line, producing its issues in emission order; the 1-based line number is
attached by `perLineCheck` below. -/

/-- The issues of one `forbidden_phrases` entry on one line: at most one, at
the first occurrence of the phrase in the lowered line. -/
def forbiddenEntryIssues (line : Line) (pr : String × String) : List PreIssue :=
  match firstOccur pr.1.data (lower line) with
  | some col =>
    [⟨(col : Int), .warning, "ms-forbidden-phrase",
      "Avoid '" ++ pr.1 ++ "'", line,
      if pr.2 = "" then "Remove this word" else "Replace with: " ++ pr.2⟩]
  | none => []

/-- Body of `check_forbidden_phrases` for one line: case-insensitive substring
containment, one issue per catalog phrase at the first occurrence. -/
def forbiddenLine (line : Line) : List PreIssue :=
  forbidden_phrases.flatMap (forbiddenEntryIssues line)

/-- The compiled pattern of `check_contractions`:
`\b(don't|won't|…)\b` with `re.IGNORECASE`, attempted at position `p` of the
lowered line.  The alternation is tried in list order; the payload is the
matched alternative. -/
def contractionTry (ls : Line) (p : Nat) : Option (Nat × Line) :=
  if boundaryBefore ls p then
    (contractions.map String.data).findSome? fun a =>
      if a.isPrefixOf (ls.drop p) && boundaryAfter ls (p + a.length) then
        some (a.length, a)
      else none
  else none

/-- Body of `check_contractions` for one line: one issue per match of the
alternation, quoting the original-case matched text. -/
def contractionLine (line : Line) : List PreIssue :=
  let ls := lower line
  (reAll (contractionTry ls) line.length).map fun m =>
    let orig := String.mk ((line.drop m.1).take m.2.1)
    let expanded :=
      ((expandedMap.find? (fun kv => kv.1.data = m.2.2)).map Prod.snd).getD
        "expanded form"
    ⟨(m.1 : Int), .warning, "ms-contraction",
      "Avoid contractions in technical documentation: '" ++ orig ++ "'",
      line, "Use: " ++ expanded⟩

/-- The issues of one `latin_abbrev` entry on one line: at most one, at the
first occurrence of the abbreviation in the lowered line. -/
def latinEntryIssues (line : Line) (pr : String × String) : List PreIssue :=
  match firstOccur pr.1.data (lower line) with
  | some col =>
    [⟨(col : Int), .warning, "ms-latin-abbrev",
      "Avoid Latin abbreviation '" ++ pr.1 ++ "'", line, "Use: " ++ pr.2⟩]
  | none => []

/-- Body of `check_latin_abbreviations` for one line: substring containment in
the lowered line, one issue per abbreviation at the first occurrence. -/
def latinLine (line : Line) : List PreIssue :=
  latin_abbrev.flatMap (latinEntryIssues line)

/-- The per-term compiled pattern of `check_preferred_terminology` and
`check_inclusive_language`: `\b<term>\b` with `re.IGNORECASE` at position `p`
of the lowered line.  Every catalog term begins and ends in a word
character. -/
def wbTermTry (t : Line) (ls : Line) (p : Nat) : Option (Nat × Unit) :=
  if boundaryBefore ls p && t.isPrefixOf (ls.drop p)
      && boundaryAfter ls (p + t.length) then
    some (t.length, ())
  else none

/-- The issues of one `preferred_terms` entry on one line (all word-boundary
matches, quoting the original-case matched text). -/
def preferredTermIssues (line : Line) (inc cor : String) : List PreIssue :=
  let ls := lower line
  (reAll (wbTermTry inc.data ls) line.length).map fun m =>
    let g := String.mk ((line.drop m.1).take m.2.1)
    ⟨(m.1 : Int), .info, "ms-preferred-term",
      "Microsoft prefers '" ++ cor ++ "' over '" ++ g ++ "'", line,
      "Use: " ++ cor⟩

/-- Body of `check_preferred_terminology` for one line. -/
def preferredLine (line : Line) : List PreIssue :=
  preferred_terms.flatMap fun pr => preferredTermIssues line pr.1 pr.2

/-- The negative lookahead `(?!\s+(noun1|noun2|…))` of the directional and
color-only patterns, evaluated at position `e` of the lowered line:
`true` when the lookahead FAILS (whitespace then one of the nouns as a
prefix). -/
def lookaheadNoun (nouns : List String) (ls : Line) (e : Nat) : Bool :=
  let sp := runLen isSpaceChar ls e
  decide (1 ≤ sp)
    && nouns.any fun n => (n.data).isPrefixOf (ls.drop (e + sp))

/-- The compiled pattern of `check_directional_language`:
`\b(above|below|left|right|top|bottom|upper|lower)\b(?!\s+(menu|bar|corner|section|panel))`
with `re.IGNORECASE`. -/
def directionalTry (ls : Line) (p : Nat) : Option (Nat × Unit) :=
  if boundaryBefore ls p then
    (["above", "below", "left", "right", "top", "bottom", "upper",
      "lower"].map String.data).findSome? fun w =>
      if w.isPrefixOf (ls.drop p) && boundaryAfter ls (p + w.length)
          && !lookaheadNoun ["menu", "bar", "corner", "section", "panel"] ls
                (p + w.length) then
        some (w.length, ())
      else none
  else none

/-- Body of `check_directional_language` for one line (the line-level guards
`'\x60' in line` and `'screenshot' in line.lower()` suppress the whole
line). -/
def directionalLine (line : Line) : List PreIssue :=
  if line.contains '`' || (firstOccur "screenshot".data (lower line)).isSome then
    []
  else
    let ls := lower line
    (reAll (directionalTry ls) line.length).map fun m =>
      let g := String.mk ((line.drop m.1).take m.2.1)
      ⟨(m.1 : Int), .warning, "ms-directional",
        "Avoid directional language: '" ++ g ++ "'", line,
        "Use 'preceding', 'following', or specific references instead"⟩

/-- The compiled pattern of `check_future_tense`:
`\b(will be|will have|will see|will allow|will enable|is going to|are going to)\b`
with `re.IGNORECASE`. -/
def futureTry (ls : Line) (p : Nat) : Option (Nat × Unit) :=
  if boundaryBefore ls p then
    (["will be", "will have", "will see", "will allow", "will enable",
      "is going to", "are going to"].map String.data).findSome? fun w =>
      if w.isPrefixOf (ls.drop p) && boundaryAfter ls (p + w.length) then
        some (w.length, ())
      else none
  else none

/-- Body of `check_future_tense` for one line. -/
def futureLine (line : Line) : List PreIssue :=
  let ls := lower line
  (reAll (futureTry ls) line.length).map fun m =>
    let g := String.mk ((line.drop m.1).take m.2.1)
    ⟨(m.1 : Int), .info, "ms-future-tense",
      "Prefer present tense over future: '" ++ g ++ "'", line,
      "Use present tense (e.g., 'allows', 'enables', 'displays')"⟩

/-- Body of `check_gender_neutral` for one line: `re.findall(r'\b\w+\b', …)`
over the lowered line, then a dictionary lookup per word (with multiplicity);
the column is the first substring occurrence of the word. -/
def genderLine (line : Line) : List PreIssue :=
  let ls := lower line
  (runsBy isWordChar ls).flatMap fun w =>
    match gendered_terms.find? (fun kv => kv.1.data = w) with
    | some kv =>
      match firstOccur w ls with
      | some col =>
        [⟨(col : Int), .warning, "ms-gender-neutral",
          "Use gender-neutral language: '" ++ kv.1 ++ "'", line,
          "Consider: " ++ kv.2⟩]
      | none => []
    | none => []

/-- The compiled pattern of `check_voice`:
`\b(is|are|was|were|be|been|being)\s+\w+ed\b` with `re.IGNORECASE`.  The
alternation is tried in order; an auxiliary that matches literally but whose
continuation fails is backtracked (e.g. `be` inside `been used`). -/
def voiceTry (ls : Line) (p : Nat) : Option (Nat × Unit) :=
  if boundaryBefore ls p then
    (["is", "are", "was", "were", "be", "been",
      "being"].map String.data).findSome? fun a =>
      if a.isPrefixOf (ls.drop p) then
        let e := p + a.length
        let sp := runLen isSpaceChar ls e
        if 1 ≤ sp then
          let wr := runLen isWordChar ls (e + sp)
          if 3 ≤ wr && charAt ls (e + sp + wr - 2) == 'e'
              && charAt ls (e + sp + wr - 1) == 'd' then
            some (e + sp + wr - p, ())
          else none
        else none
      else none
  else none

/-- Body of `check_voice` for one line: the false-positive guard skips the
whole line when it contains `speed`, `need` or `feed` (the guard inside the
match loop does not depend on the match). -/
def voiceLine (line : Line) : List PreIssue :=
  if ["speed", "need", "feed"].any
      (fun w => (firstOccur w.data (lower line)).isSome) then
    []
  else
    (reAll (voiceTry (lower line)) line.length).map fun m =>
      ⟨(m.1 : Int), .info, "ms-passive-voice",
        "Consider using active voice", line,
        "Rewrite in active voice for clarity"⟩

/-- The tail `\s+(.+)$` shared by the heading and list patterns: at least one
whitespace character, then group = the rest of the line.  When everything
after the whitespace is empty, `\s+` backtracks and the group captures the
last whitespace character (needs at least two). -/
def tailAfterSpace (t : Line) : Option Line :=
  let sp := runLen isSpaceChar t 0
  if sp = 0 then none
  else if (t.drop sp).isEmpty then
    if 2 ≤ sp then some [charAt t (sp - 1)] else none
  else some (t.drop sp)

/-- The heading pattern of `check_headings_microsoft`:
`^(#{1,6})\s+(.+)$`; returns group 2.  Seven or more hashes never match (after
at most six hashes the next character is another hash, not whitespace). -/
def headingParse (line : Line) : Option Line :=
  let m := (line.takeWhile (· == '#')).length
  if 1 ≤ m ∧ m ≤ 6 then tailAfterSpace (line.drop m) else none

/-- Body of `check_headings_microsoft` for one line: sentence-case heuristic,
trailing punctuation, leading gerund — in that order. -/
def headingLine (line : Line) : List PreIssue :=
  match headingParse line with
  | none => []
  | some g2 =>
    let title := strip g2
    let words := splitWs title
    let caseIss :=
      if 1 < words.length then
        let tcc := (words.drop 1).countP fun w =>
          (charAt w 0).isUpper && decide (3 < w.length)
        -- `title_case_count > len(words[1:]) / 2` with Python float division
        if (words.length - 1) < 2 * tcc then
          [(⟨0, .info, "ms-heading-case",
            "Microsoft prefers sentence case for headings", line,
            "Use sentence case (capitalize only first word and proper nouns)"⟩
            : PreIssue)]
        else []
      else []
    let punctIss :=
      if ['.', '!', '?', ':'].contains ((rstrip title).getLastD ' ') &&
          !(rstrip title).isEmpty then
        [(⟨(line.length : Int) - 1, .warning, "ms-heading-punctuation",
          "Headings should not end with punctuation", line,
          "Remove trailing punctuation"⟩ : PreIssue)]
      else []
    let first_word := words.headD []
    let gerundIss :=
      if ("ing".data).isSuffixOf (lower first_word) then
        [(⟨0, .info, "ms-heading-gerund",
          "Consider using imperative or noun form instead of gerund: '"
            ++ String.mk first_word ++ "'", line,
          "Use imperative (e.g., 'Configure') or noun form"⟩ : PreIssue)]
      else []
    caseIss ++ punctIss ++ gerundIss

/-- The list-item pattern of `check_lists_microsoft`:
`^(\s*)([-*+]|\d+\.)\s+(.+)$`; returns group 3 (the item content). -/
def listParse (line : Line) : Option Line :=
  let sp := runLen isSpaceChar line 0
  match line.drop sp with
  | [] => none
  | c :: rest =>
    if c == '-' || c == '*' || c == '+' then tailAfterSpace rest
    else if c.isDigit then
      let ds := runLen Char.isDigit line sp
      match line.drop (sp + ds) with
      | '.' :: rest2 => tailAfterSpace rest2
      | _ => none
    else none

/-- Body of `check_lists_microsoft` for line index `j` (0-based): the
parallel-structure check inspects the previous physical line. -/
def listLineAt (lines : List Line) (j : Nat) : List PreIssue :=
  let line := lines.getD j []
  match listParse line with
  | none => []
  | some content =>
    let parallelIss :=
      if (charAt content 0).isLower then
        if 1 ≤ j then
          match listParse (lines.getD (j - 1) []) with
          | some prev =>
            if (charAt prev 0).isUpper then
              [(⟨0, .info, "ms-list-parallel",
                "List items should have parallel structure", line,
                "Ensure all list items start with same case"⟩ : PreIssue)]
            else []
          | none => []
        else []
      else []
    let punctIss :=
      if 5 < (splitWs content).length &&
          !(['.', ':', '!'].contains ((rstrip content).getLastD ' ') &&
            !(rstrip content).isEmpty) then
        [(⟨(line.length : Int) - 1, .info, "ms-list-punctuation",
          "Complete sentences in lists should end with period", line,
          "Add period if this is a complete sentence"⟩ : PreIssue)]
      else []
    parallelIss ++ punctIss

/-- Body of `check_capitalization` for one line: `\binternet\b`
(case-sensitive) over the original line, one issue per match. -/
def capitalizationLine (line : Line) : List PreIssue :=
  (reAll (wbTermTry "internet".data line) line.length).map fun m =>
    ⟨(m.1 : Int), .warning, "ms-internet-cap",
      "'Internet' should be capitalized", line, "Use: Internet"⟩

/-- The pattern `\s+[.,!?;:]` of `check_punctuation`, attempted at `p`:
whitespace run then a punctuation mark right after it. -/
def spaceBeforePunctTry (line : Line) (p : Nat) : Option (Nat × Unit) :=
  if p < line.length && isSpaceChar (charAt line p) then
    let sp := runLen isSpaceChar line p
    if ['.', ',', '!', '?', ';', ':'].contains (charAt line (p + sp)) then
      some (sp + 1, ())
    else none
  else none

/-- The serial-comma pattern `\w+,\s+\w+\s+and\s+\w+` of `check_punctuation`,
attempted at `p`.  Every quantifier is forced to its maximal run by the
following literal, so the backtracking search is this direct test. -/
def oxfordTry (line : Line) (p : Nat) : Option (Nat × Unit) :=
  let w1 := runLen isWordChar line p
  if w1 = 0 then none
  else if !(charAt line (p + w1) == ',') then none
  else
    let q := p + w1 + 1
    let sp1 := runLen isSpaceChar line q
    if sp1 = 0 then none
    else
      let w2 := runLen isWordChar line (q + sp1)
      if w2 = 0 then none
      else
        let r := q + sp1 + w2
        let sp2 := runLen isSpaceChar line r
        if sp2 = 0 then none
        else if !(("and".data).isPrefixOf (line.drop (r + sp2))) then none
        else
          let u := r + sp2 + 3
          let sp3 := runLen isSpaceChar line u
          if sp3 = 0 then none
          else
            let w3 := runLen isWordChar line (u + sp3)
            if w3 = 0 then none else some (u + sp3 + w3 - p, ())

/-- Body of `check_punctuation` for one line: first double space, first
space-before-punctuation, first serial-comma candidate — one issue each. -/
def punctuationLine (line : Line) : List PreIssue :=
  let doubleIss :=
    match firstOccur "  ".data line with
    | some col =>
      [(⟨(col : Int), .info, "ms-double-space",
        "Use single space between sentences", line,
        "Remove extra space"⟩ : PreIssue)]
    | none => []
  let spacePunctIss :=
    match reFirst (spaceBeforePunctTry line) line.length with
    | some m =>
      [(⟨(m.1 : Int), .warning, "ms-space-before-punct",
        "No space before punctuation", line,
        "Remove space before punctuation mark"⟩ : PreIssue)]
    | none => []
  let oxfordIss :=
    match reFirst (oxfordTry line) line.length with
    | some m =>
      [(⟨(m.1 : Int), .info, "ms-oxford-comma",
        "Microsoft style uses serial comma", line,
        "Add comma before 'and' in series"⟩ : PreIssue)]
    | none => []
  doubleIss ++ spacePunctIss ++ oxfordIss

/-- The unit list of `check_numbers_and_units`, in alternation order. -/
def unitList : List String :=
  ["GB", "MB", "KB", "TB", "ms", "cm", "mm", "km", "kg", "mg"]

/-- The pattern `\d+(GB|MB|KB|TB|ms|cm|mm|km|kg|mg)` (case-sensitive),
attempted at `p`: a digit run immediately followed by a unit.  The payload is
the matched text. -/
def unitTry (line : Line) (p : Nat) : Option (Nat × Line) :=
  let d := runLen Char.isDigit line p
  if d = 0 then none
  else
    (unitList.map String.data).findSome? fun u =>
      if u.isPrefixOf (line.drop (p + d)) then
        some (d + u.length, (line.drop p).take (d + u.length))
      else none

/-- The pattern `(?<!\d)\.\d+`, attempted at `p`: a decimal point not preceded
by a digit, then a digit run.  The payload is the matched text. -/
def decimalTry (line : Line) (p : Nat) : Option (Nat × Line) :=
  if charAt line p == '.' && !(1 ≤ p && (charAt line (p - 1)).isDigit) then
    let d := runLen Char.isDigit line (p + 1)
    if 1 ≤ d then some (1 + d, (line.drop p).take (1 + d)) else none
  else none

/-- Body of `check_numbers_and_units` for one line. -/
def numbersLine (line : Line) : List PreIssue :=
  let startIss :=
    if (charAt (strip line) 0).isDigit && !(strip line).isEmpty then
      [(⟨0, .info, "ms-number-start",
        "Spell out numbers at the beginning of a sentence", line,
        "Rewrite sentence or spell out the number"⟩ : PreIssue)]
    else []
  let unitIss :=
    (reAll (unitTry line) line.length).map fun m =>
      ⟨(m.1 : Int), .warning, "ms-number-unit-space",
        "Add space between number and unit", line,
        "Use: " ++ String.mk (rstripChars "GMKTBmcskbg".data m.2.2) ++ " "
          ++ String.mk (m.2.2.drop (m.2.2.length - 2))⟩
  let decimalIss :=
    (reAll (decimalTry line) line.length).map fun m =>
      ⟨(m.1 : Int), .info, "ms-zero-decimal",
        "Include zero before decimal point", line,
        "Use: 0" ++ String.mk m.2.2⟩
  startIss ++ unitIss ++ decimalIss

/-- The per-verb pattern of `check_ui_elements`:
`\b<verb>\s+(?!the\s+)` ++ backtick? ++ `\w+` ++ backtick? with
`re.IGNORECASE`, attempted at `p` of the lowered line. -/
def uiVerbTry (v : Line) (ls : Line) (p : Nat) : Option (Nat × Unit) :=
  if !boundaryBefore ls p then none
  else if !(v.isPrefixOf (ls.drop p)) then none
  else
    let e := p + v.length
    let sp := runLen isSpaceChar ls e
    if sp = 0 then none
    else
      let q := e + sp
      if ("the".data).isPrefixOf (ls.drop q)
          && 1 ≤ runLen isSpaceChar ls (q + 3) then none
      else
        let q1 := if charAt ls q == '`' then q + 1 else q
        let wr := runLen isWordChar ls q1
        if wr = 0 then none
        else
          let q2 := q1 + wr
          let q3 := if charAt ls q2 == '`' then q2 + 1 else q2
          some (q3 - p, ())

/-- Body of `check_ui_elements` for one line: the per-verb loop (issues only
for `click`, `press`, `select`), then the `click on` search. -/
def uiLine (line : Line) : List PreIssue :=
  let ls := lower line
  let verbIss :=
    (["click", "select", "choose", "press", "enter",
      "type"] : List String).flatMap fun v =>
      (reAll (uiVerbTry v.data ls) line.length).flatMap fun m =>
        let e := m.1 + m.2.1
        if !((charAt line e == '*' && charAt line (e + 1) == '*')
            || charAt line e == '`') then
          if v = "click" || v = "press" || v = "select" then
            [(⟨(m.1 : Int), .info, "ms-ui-element",
              "UI elements should be bold. Also prefer 'select' over '" ++ v
                ++ "'", line,
              "Format UI element in bold (**element**)"⟩ : PreIssue)]
          else []
        else []
  let clickOnIss :=
    match reFirst (fun p =>
        if boundaryBefore ls p && ("click on".data).isPrefixOf (ls.drop p)
            && boundaryAfter ls (p + 8) then some (8, ()) else none)
        line.length with
    | some m =>
      [(⟨(m.1 : Int), .warning, "ms-click-on",
        "Use 'select' instead of 'click on'", line,
        "Replace 'click on' with 'select'"⟩ : PreIssue)]
    | none => []
  verbIss ++ clickOnIss

/-- The per-indicator pattern of `check_code_formatting`:
`\b<indicator>\s+\w+\b(?!` ++ backtick ++ `)` with `re.IGNORECASE`: indicator,
whitespace, a maximal word run not followed by a backtick. -/
def codeIndicatorTry (ind : Line) (ls : Line) (p : Nat) : Option (Nat × Unit) :=
  if !boundaryBefore ls p then none
  else if !(ind.isPrefixOf (ls.drop p)) then none
  else
    let e := p + ind.length
    let sp := runLen isSpaceChar ls e
    if sp = 0 then none
    else
      let wr := runLen isWordChar ls (e + sp)
      if wr = 0 then none
      else if charAt ls (e + sp + wr) == '`' then none
      else some (e + sp + wr - p, ())

/-- Body of `check_code_formatting` for one line: for each match, the issue
is emitted at the next word AFTER the match, when one exists and is not
preceded by a backtick. -/
def codeFormatLine (line : Line) : List PreIssue :=
  let ls := lower line
  (["function", "method", "class", "variable", "parameter",
    "property"] : List String).flatMap fun ind =>
    (reAll (codeIndicatorTry ind.data ls) line.length).flatMap fun m =>
      let e := m.1 + m.2.1
      match ((line.drop e).findIdx? isWordChar).map (· + e) with
      | some pos =>
        if pos < line.length && !(charAt line (pos - 1) == '`') then
          [(⟨(pos : Int), .info, "ms-code-format",
            "Code elements should be formatted as code", line,
            "Wrap in backticks (`code`)"⟩ : PreIssue)]
        else []
      | none => []

/-- The inline-link pattern of `check_links_microsoft`:
`\[([^\]]+)\]\(([^)]+)\)`; the payload is (link text, url). -/
def linkTry (s : Line) (p : Nat) : Option (Nat × Line × Line) :=
  if !(charAt s p == '[') || s.length ≤ p then none
  else
    let t := (s.drop (p + 1)).takeWhile (· != ']')
    if t.isEmpty then none
    else
      let q := p + 1 + t.length
      if !(charAt s q == ']') then none
      else if !(charAt s (q + 1) == '(') then none
      else
        let u := (s.drop (q + 2)).takeWhile (· != ')')
        if u.isEmpty then none
        else
          let r := q + 2 + u.length
          if !(charAt s r == ')') then none
          else some (r + 1 - p, t, u)

/-- Body of `check_links_microsoft` for one line: per inline link, the
non-descriptive-text check, the URL-as-text check, and the "see"/"refer to"
check (whose column `match.start() - 10` can be negative). -/
def linkLine (line : Line) : List PreIssue :=
  (reAll (linkTry line) line.length).flatMap fun m =>
    let p := m.1
    let t := m.2.2.1
    let u := m.2.2.2
    let textIss :=
      if (["click here", "here", "this link",
          "this page"].map String.data).contains (lower t) then
        [(⟨(p : Int), .warning, "ms-link-text",
          "Avoid '" ++ String.mk t ++ "' as link text", line,
          "Use descriptive link text that makes sense out of context"⟩
          : PreIssue)]
      else []
    let urlIss :=
      if ("http".data).isPrefixOf u && ("http".data).isPrefixOf t then
        [(⟨(p : Int), .info, "ms-link-descriptive",
          "Use descriptive link text instead of URL", line,
          "Replace URL with meaningful description"⟩ : PreIssue)]
      else []
    let seeIss :=
      let before := strip (lower (line.take p))
      if (["see", "see the", "refer to",
          "refer to the"].map String.data).any
          (fun w => w.isSuffixOf before) then
        [(⟨(p : Int) - 10, .info, "ms-link-see",
          "Link text should be descriptive without 'see' or 'refer to'",
          line,
          "Remove 'see' or 'refer to' and use descriptive link text"⟩
          : PreIssue)]
      else []
    textIss ++ urlIss ++ seeIss

/-- The empty-alt-text pattern of `check_accessibility`:
`!\[\s*\]\([^)]+\)`. -/
def imgTry (s : Line) (p : Nat) : Option (Nat × Unit) :=
  if !(charAt s p == '!') || s.length ≤ p then none
  else if !(charAt s (p + 1) == '[') then none
  else
    let w := runLen isSpaceChar s (p + 2)
    if !(charAt s (p + 2 + w) == ']') then none
    else if !(charAt s (p + 3 + w) == '(') then none
    else
      let u := (s.drop (p + 4 + w)).takeWhile (· != ')')
      if u.isEmpty then none
      else if !(charAt s (p + 4 + w + u.length) == ')') then none
      else some (4 + w + u.length + 1, ())

/-- Body of `check_accessibility` for one line: every empty-alt-text image is
an Error; then, per color word, one Warning at the first match of
`\b<color>\b(?!\s+(text|background|icon|button))` over the lowered line. -/
def accessibilityLine (line : Line) : List PreIssue :=
  let imgIss :=
    (reAll (imgTry line) line.length).map fun m =>
      (⟨(m.1 : Int), .error, "ms-alt-text",
        "Images must have alt text for accessibility", line,
        "Add descriptive alt text: ![description](url)"⟩ : PreIssue)
  let ls := lower line
  let colorIss :=
    (["red", "green", "blue", "yellow", "colored",
      "highlighted"] : List String).flatMap fun color =>
      match reFirst (fun p =>
          if boundaryBefore ls p && (color.data).isPrefixOf (ls.drop p)
              && boundaryAfter ls (p + color.length)
              && !lookaheadNoun ["text", "background", "icon", "button"] ls
                    (p + color.length) then
            some (color.length, ())
          else none) line.length with
      | some m =>
        [(⟨(m.1 : Int), .warning, "ms-color-only",
          "Don't rely solely on color ('" ++ color
            ++ "') to convey information", line,
          "Add text labels or icons in addition to color"⟩ : PreIssue)]
      | none => []
  imgIss ++ colorIss

/-- The issues of one `problematic_terms` entry on one line: all matches of
`\b<term>\b` with `re.IGNORECASE`, quoting the original-case matched text. -/
def inclusiveTermIssues (line : Line) (term alt : String) : List PreIssue :=
  (reAll (wbTermTry term.data (lower line)) line.length).map fun m =>
    let g := String.mk ((line.drop m.1).take m.2.1)
    ⟨(m.1 : Int), .warning, "ms-inclusive",
      "Use inclusive language: avoid '" ++ g ++ "'", line,
      "Consider: " ++ alt⟩

/-- Body of `check_inclusive_language` for one line. -/
def inclusiveLine (line : Line) : List PreIssue :=
  problematic_terms.flatMap fun pr => inclusiveTermIssues line pr.1 pr.2

/-! ## The check functions over the whole line sequence -/

/-- The shared loop shape `for i, line in enumerate(lines, 1)` of every check
function: per line, skip it when `skip` is set and the context tracker
reports "inside code block", otherwise emit the per-line body's issues with
the 1-based line number attached. -/
def perLineCheck (skip : Bool) (f : List Line → Nat → List PreIssue)
    (lines : List Line) : List LintIssue :=
  (List.range lines.length).flatMap fun j =>
    if skip && is_in_code_block lines j then []
    else (f lines j).map (fun p => p.toIssue (j + 1))

def check_forbidden_phrases (lines : List Line) : List LintIssue :=
  perLineCheck true (fun ls j => forbiddenLine (ls.getD j [])) lines

def check_contractions (lines : List Line) : List LintIssue :=
  perLineCheck true (fun ls j => contractionLine (ls.getD j [])) lines

def check_latin_abbreviations (lines : List Line) : List LintIssue :=
  perLineCheck true (fun ls j => latinLine (ls.getD j [])) lines

def check_preferred_terminology (lines : List Line) : List LintIssue :=
  perLineCheck true (fun ls j => preferredLine (ls.getD j [])) lines

def check_directional_language (lines : List Line) : List LintIssue :=
  perLineCheck true (fun ls j => directionalLine (ls.getD j [])) lines

def check_future_tense (lines : List Line) : List LintIssue :=
  perLineCheck true (fun ls j => futureLine (ls.getD j [])) lines

def check_gender_neutral (lines : List Line) : List LintIssue :=
  perLineCheck true (fun ls j => genderLine (ls.getD j [])) lines

def check_voice (lines : List Line) : List LintIssue :=
  perLineCheck true (fun ls j => voiceLine (ls.getD j [])) lines

/-- `check_headings_microsoft` has no code-block skip: it runs on every
line. -/
def check_headings_microsoft (lines : List Line) : List LintIssue :=
  perLineCheck false (fun ls j => headingLine (ls.getD j [])) lines

/-- `check_lists_microsoft` has no code-block skip: it runs on every line. -/
def check_lists_microsoft (lines : List Line) : List LintIssue :=
  perLineCheck false listLineAt lines

def check_capitalization (lines : List Line) : List LintIssue :=
  perLineCheck true (fun ls j => capitalizationLine (ls.getD j [])) lines

def check_punctuation (lines : List Line) : List LintIssue :=
  perLineCheck true (fun ls j => punctuationLine (ls.getD j [])) lines

def check_numbers_and_units (lines : List Line) : List LintIssue :=
  perLineCheck true (fun ls j => numbersLine (ls.getD j [])) lines

def check_ui_elements (lines : List Line) : List LintIssue :=
  perLineCheck true (fun ls j => uiLine (ls.getD j [])) lines

def check_code_formatting (lines : List Line) : List LintIssue :=
  perLineCheck true (fun ls j => codeFormatLine (ls.getD j [])) lines

/-- `check_links_microsoft` has no code-block skip: it runs on every line. -/
def check_links_microsoft (lines : List Line) : List LintIssue :=
  perLineCheck false (fun ls j => linkLine (ls.getD j [])) lines

/-- `check_accessibility` has no code-block skip: it runs on every line. -/
def check_accessibility (lines : List Line) : List LintIssue :=
  perLineCheck false (fun ls j => accessibilityLine (ls.getD j [])) lines

def check_inclusive_language (lines : List Line) : List LintIssue :=
  perLineCheck true (fun ls j => inclusiveLine (ls.getD j [])) lines

/-! ## Aggregation: `lint_file`, severity filter, reports, `main` -/

/-- The fourteen check functions that skip lines inside fenced code blocks,
concatenated (all checks except headings, lists, links and accessibility). -/
def skippingChecks (lines : List Line) : List LintIssue :=
  check_forbidden_phrases lines ++ check_contractions lines
    ++ check_latin_abbreviations lines ++ check_preferred_terminology lines
    ++ check_directional_language lines ++ check_future_tense lines
    ++ check_gender_neutral lines ++ check_voice lines
    ++ check_capitalization lines ++ check_punctuation lines
    ++ check_numbers_and_units lines ++ check_ui_elements lines
    ++ check_code_formatting lines ++ check_inclusive_language lines

/-- All eighteen checks in the invocation order of `lint_file`. -/
def runAllChecks (lines : List Line) : List LintIssue :=
  check_forbidden_phrases lines ++ check_contractions lines
    ++ check_latin_abbreviations lines ++ check_preferred_terminology lines
    ++ check_directional_language lines ++ check_future_tense lines
    ++ check_gender_neutral lines ++ check_voice lines
    ++ check_headings_microsoft lines ++ check_lists_microsoft lines
    ++ check_capitalization lines ++ check_punctuation lines
    ++ check_numbers_and_units lines ++ check_ui_elements lines
    ++ check_code_formatting lines ++ check_links_microsoft lines
    ++ check_accessibility lines ++ check_inclusive_language lines

/-- The sort key of `lint_file`: `(line_number, column)` lexicographically,
as a total preorder (Python `list.sort` is a stable merge sort). -/
def issueLE (a b : LintIssue) : Bool :=
  a.line_number < b.line_number
    || (a.line_number == b.line_number && a.column ≤ b.column)

/-- `self.issues.sort(key=lambda x: (x.line_number, x.column))`: Python
`list.sort` is a stable sort by the key, and a stable sort by a total
preorder has a unique result, so the stable `insertionSort` computes it. -/
def sortIssues (l : List LintIssue) : List LintIssue :=
  l.insertionSort (fun a b => issueLE a b = true)

/-- `lint_file` on successfully read content: run all checks, sort. -/
def lint_lines (lines : List Line) : List LintIssue :=
  sortIssues (runAllChecks lines)

/-- The `except` branch of `lint_file`: a single synthetic line-0 Error
finding carrying the underlying error description. -/
def fileReadIssue (err : String) : LintIssue :=
  ⟨0, 0, .error, "file-read", "Error reading file: " ++ err, [], ""⟩

/-- `lint_file` over abstracted file content: `none` models `open` raising. -/
def lint_file : Option (List Line) → String → List LintIssue
  | none, err => [fileReadIssue err]
  | some lines, _ => lint_lines lines

/-- The severity filter of `main`:
`severity_levels[issue.severity.value] >= min_severity`. -/
def filterMin (minSeverity : Nat) (issues : List LintIssue) : List LintIssue :=
  issues.filter (fun i => minSeverity ≤ i.severity.level)

/-- `generate_report`'s summary structure (the `rule_counts` dict is an
association list in insertion order). -/
structure Report where
  filepath : String
  total_issues : Nat
  errors : Nat
  warnings : Nat
  info : Nat
  rule_counts : List (String × Nat)
deriving DecidableEq, Repr

/-- `rule_counts[issue.rule] = rule_counts.get(issue.rule, 0) + 1` on an
association list: increment in place, or append a fresh key. -/
def bumpRule : List (String × Nat) → String → List (String × Nat)
  | [], r => [(r, 1)]
  | kv :: rest, r =>
    if kv.1 = r then (kv.1, kv.2 + 1) :: rest else kv :: bumpRule rest r

/-- The `rule_counts` dictionary of `generate_report`. -/
def ruleCounts (issues : List LintIssue) : List (String × Nat) :=
  issues.foldl (fun rc i => bumpRule rc i.rule) []

/-- `generate_report`. -/
def generate_report (issues : List LintIssue) (filepath : String) : Report :=
  ⟨filepath, issues.length,
    issues.countP (fun i => i.severity == .error),
    issues.countP (fun i => i.severity == .warning),
    issues.countP (fun i => i.severity == .info),
    ruleCounts issues⟩

/-- One command-line path as `main` sees it: missing (`path.exists()` is
false), present but unreadable (`open` raises, with the exception text), or
readable with its lines. -/
inductive FileEntry where
  | missing (name : String)
  | unreadable (name : String) (err : String)
  | readable (name : String) (lines : List Line)
deriving DecidableEq, Repr

/-- `main`'s handling of one path: a missing path is skipped (`continue`)
before `lint_file` is ever called; otherwise `lint_file` runs. -/
def processFile : FileEntry → Option (List LintIssue)
  | .missing _ => none
  | .unreadable _ err => some (lint_file none err)
  | .readable _ lines => some (lint_file (some lines) "")

/-- The path string of an entry. -/
def FileEntry.nameOf : FileEntry → String
  | .missing n => n
  | .unreadable n _ => n
  | .readable n _ => n

/-- The per-file reports accumulated into `all_results` by `main` (one report
per processed file, on the post-filter findings; skipped/missing paths
contribute nothing). -/
def mainReports (minSeverity : Nat) : List FileEntry → List Report
  | [] => []
  | f :: rest =>
    match processFile f with
    | none => mainReports minSeverity rest
    | some issues =>
      generate_report (filterMin minSeverity issues) f.nameOf
        :: mainReports minSeverity rest

/-- The exit-code accumulation of `main`: `exit_code` starts at 0 and is set
to 1 when, with `--summary` off, some processed file's post-filter findings
contain an Error.  The `if not args.summary:` block encloses the Error test,
so with `--summary` on the exit code is never set. -/
def mainExitCode (summaryOnly : Bool) (minSeverity : Nat)
    (files : List FileEntry) : Nat :=
  files.foldl
    (fun code f =>
      match processFile f with
      | none => code
      | some issues =>
        if !summaryOnly
            && (filterMin minSeverity issues).any
                  (fun i => i.severity == .error) then 1
        else code)
    0

/-! ## Shared lemmas about the aggregation pipeline -/

/-- Sorting permutes, so membership in the sorted findings is membership in
the checks' combined output. -/
theorem mem_sortIssues {a : LintIssue} {l : List LintIssue} :
    a ∈ sortIssues l ↔ a ∈ l :=
  (List.perm_insertionSort (fun a b => issueLE a b = true) l).mem_iff

/-- Every finding of a check carries the 1-based number of a line the check
did not skip. -/
theorem perLineCheck_line_numbers {skip : Bool}
    {f : List Line → Nat → List PreIssue} {lines : List Line}
    {iss : LintIssue} (h : iss ∈ perLineCheck skip f lines) :
    ∃ j, j < lines.length ∧ (skip && is_in_code_block lines j) = false
      ∧ iss.line_number = j + 1 := by
  simp only [perLineCheck, List.mem_flatMap, List.mem_range] at h
  obtain ⟨j, hj, hmem⟩ := h
  cases hg : (skip && is_in_code_block lines j) with
  | true => rw [if_pos hg] at hmem; simp at hmem
  | false =>
    rw [if_neg (by rw [hg]; exact Bool.false_ne_true)] at hmem
    obtain ⟨p, _, rfl⟩ := List.mem_map.mp hmem
    exact ⟨j, hj, hg, rfl⟩

/-- A per-line body's issue is a finding of the check, on any line the check
does not skip. -/
theorem perLineCheck_mem {skip : Bool} {f : List Line → Nat → List PreIssue}
    {lines : List Line} {j : Nat} {p : PreIssue} (hj : j < lines.length)
    (hg : (skip && is_in_code_block lines j) = false) (hp : p ∈ f lines j) :
    p.toIssue (j + 1) ∈ perLineCheck skip f lines := by
  simp only [perLineCheck, List.mem_flatMap, List.mem_range]
  refine ⟨j, hj, ?_⟩
  rw [if_neg (by rw [hg]; exact Bool.false_ne_true)]
  exact List.mem_map_of_mem _ hp

/-! ## Claim C1: the context tracker's toggle -/

/-- C1 counterexample input: a fence marker preceded by one space. -/
def c1lines : List Line := [" ```".data, "x".data]

/-- C1 is false as stated: the spec's fence test ignores leading whitespace,
but `is_in_code_block` uses `re.match`, which anchors at the very start of
the line.  At `c1lines` and index 1 the number of spec-fence-marker lines
before the index is odd (the line `" ``` "`-like marker counts), yet the
source returns `false`. -/
theorem C1_counterexample :
    ¬ (is_in_code_block c1lines 1 = true
        ↔ (c1lines.take 1).countP specFenceMarker % 2 = 1) := by decide

/-- C1 amended: with fence markers read without skipping leading whitespace
(the source's `re.match(r'^```|^~~~', …)`), `is_in_code_block` returns true
at a valid index exactly when the number of fence-marker lines strictly
before it is odd. -/
theorem C1_amended (lines : List Line) (k : Nat) (_hk : k < lines.length) :
    is_in_code_block lines k = true
      ↔ (lines.take k).countP isFence % 2 = 1 :=
  is_in_code_block_iff_odd lines k

/-- Witness for C1 at a concrete two-line input. -/
theorem C1_witness :
    1 < ([ "```".data, "x".data ] : List Line).length
      ∧ (is_in_code_block ["```".data, "x".data] 1 = true
          ↔ (["```".data, "x".data].take 1).countP isFence % 2 = 1) :=
  ⟨by decide, C1_amended ["```".data, "x".data] 1 (by decide)⟩

/-! ## Claim C2: which checks skip fenced code -/

/-- C2 counterexample input: an inline link inside a fenced code block. -/
def c2lines : List Line := ["```".data, "[click here](http://x)".data]

/-- C2 is false as stated: `check_links_microsoft` also runs unconditionally
(it has no code-block skip), so the accessibility/heading/list checks are not
the only ones emitting findings on lines inside fenced code blocks: here the
link check emits a finding on in-code line 2. -/
theorem C2_counterexample :
    is_in_code_block c2lines 1 = true
      ∧ (check_links_microsoft c2lines).any
          (fun iss => iss.line_number == 2) = true := by decide

/-- C2 amended: every check except the accessibility, heading, list AND link
checks emits no finding for a line inside a fenced code block
(`skippingChecks` concatenates those fourteen checks). -/
theorem C2_amended (lines : List Line) (i : Nat)
    (h : is_in_code_block lines i = true) :
    (skippingChecks lines).all (fun iss => iss.line_number != i + 1) = true := by
  rw [List.all_eq_true]
  intro iss hmem
  have key : ∀ {f : List Line → Nat → List PreIssue},
      iss ∈ perLineCheck true f lines → iss.line_number ≠ i + 1 := by
    intro f hf
    obtain ⟨j, _, hg, hline⟩ := perLineCheck_line_numbers hf
    simp only [Bool.true_and] at hg
    intro hcontra
    rw [hline] at hcontra
    have hji : j = i := by omega
    rw [hji, h] at hg
    exact Bool.noConfusion hg
  have : iss.line_number ≠ i + 1 := by
    simp only [skippingChecks, List.mem_append] at hmem
    rcases hmem with
      (((((((((((((h1|h1)|h1)|h1)|h1)|h1)|h1)|h1)|h1)|h1)|h1)|h1)|h1)|h1)
    all_goals exact key h1
  simpa using this

/-- Witness for C2 at the concrete in-code input. -/
theorem C2_witness :
    (skippingChecks c2lines).all (fun iss => iss.line_number != 2) = true :=
  C2_amended c2lines 1 (by decide)

/-! ## Claim C3: the "Please note that you can't utilize this feature."
scenario -/

/-- The scenario line of claim C3. -/
def c3line : Line := "Please note that you can't utilize this feature.".data

/-- The forbidden-phrase finding for "please note". -/
def c3forbidden1 : PreIssue :=
  ⟨0, .warning, "ms-forbidden-phrase", "Avoid 'please note'", c3line,
    "Replace with: Note:"⟩

/-- The contraction finding for "can't". -/
def c3contraction : PreIssue :=
  ⟨21, .warning, "ms-contraction",
    "Avoid contractions in technical documentation: 'can't'", c3line,
    "Use: cannot"⟩

/-- The forbidden-phrase finding for "utilize". -/
def c3forbidden2 : PreIssue :=
  ⟨27, .warning, "ms-forbidden-phrase", "Avoid 'utilize'", c3line,
    "Replace with: use"⟩

set_option maxHeartbeats 1600000 in
/-- C3: whenever the scenario line occurs at a valid index outside any code
fence, the full lint pass contains the three pairwise distinct findings: the
forbidden-phrase finding for "please note" (suggestion "Note:"), the
contraction finding for "can't" (suggestion "Use: cannot") and the
forbidden-phrase finding for "utilize" (suggestion "Replace with: use"), all
on that line. -/
theorem C3_scenario (lines : List Line) (k : Nat)
    (hk : lines.getD k [] = c3line) (hlen : k < lines.length)
    (hcode : is_in_code_block lines k = false) :
    c3forbidden1.toIssue (k + 1) ∈ lint_lines lines
      ∧ c3contraction.toIssue (k + 1) ∈ lint_lines lines
      ∧ c3forbidden2.toIssue (k + 1) ∈ lint_lines lines
      ∧ c3forbidden1.toIssue (k + 1) ≠ c3contraction.toIssue (k + 1)
      ∧ c3forbidden1.toIssue (k + 1) ≠ c3forbidden2.toIssue (k + 1)
      ∧ c3contraction.toIssue (k + 1) ≠ c3forbidden2.toIssue (k + 1) := by
  have hguard : (true && is_in_code_block lines k) = false := by
    rw [hcode]; rfl
  refine ⟨?_, ?_, ?_, ?_, ?_, ?_⟩
  · apply mem_sortIssues.mpr
    have hmem : c3forbidden1.toIssue (k + 1)
        ∈ check_forbidden_phrases lines := by
      apply perLineCheck_mem hlen hguard
      show c3forbidden1 ∈ forbiddenLine (lines.getD k [])
      rw [hk]
      decide
    simp only [runAllChecks, List.mem_append]
    tauto
  · apply mem_sortIssues.mpr
    have hmem : c3contraction.toIssue (k + 1)
        ∈ check_contractions lines := by
      apply perLineCheck_mem hlen hguard
      show c3contraction ∈ contractionLine (lines.getD k [])
      rw [hk]
      decide
    simp only [runAllChecks, List.mem_append]
    tauto
  · apply mem_sortIssues.mpr
    have hmem : c3forbidden2.toIssue (k + 1)
        ∈ check_forbidden_phrases lines := by
      apply perLineCheck_mem hlen hguard
      show c3forbidden2 ∈ forbiddenLine (lines.getD k [])
      rw [hk]
      decide
    simp only [runAllChecks, List.mem_append]
    tauto
  · intro h
    have hc : c3forbidden1.column = c3contraction.column :=
      congrArg LintIssue.column h
    exact absurd hc (by decide)
  · intro h
    have hc : c3forbidden1.column = c3forbidden2.column :=
      congrArg LintIssue.column h
    exact absurd hc (by decide)
  · intro h
    have hc : c3contraction.column = c3forbidden2.column :=
      congrArg LintIssue.column h
    exact absurd hc (by decide)

set_option maxHeartbeats 1600000 in
/-- Witness for C3 at the single-line input. -/
theorem C3_witness :
    ([c3line].getD 0 [] = c3line ∧ 0 < ([c3line] : List Line).length
      ∧ is_in_code_block [c3line] 0 = false)
      ∧ c3forbidden1.toIssue 1 ∈ lint_lines [c3line] :=
  ⟨⟨rfl, by decide, by decide⟩,
    (C3_scenario [c3line] 0 rfl (by decide) (by decide)).1⟩

/-! ## Claim C6: the empty-alt-text scenario -/

/-- C6 input 1: an image with empty alt text. -/
def c6img : Line := "![](photo.png)".data

/-- C6 input 2: an image with alt text. -/
def c6ok : Line := "![a cat sleeping](photo.png)".data

/-- The missing-alt-text Error finding on line 1. -/
def c6issue : LintIssue :=
  ⟨1, 0, .error, "ms-alt-text", "Images must have alt text for accessibility",
    c6img, "Add descriptive alt text: ![description](url)"⟩

set_option maxHeartbeats 4000000 in
/-- C6: linting the single line `![](photo.png)` yields exactly one finding —
an Error whose rule is the missing-alt-text rule — and linting the single
line `![a cat sleeping](photo.png)` yields no findings at all. -/
theorem C6_alt_text_scenario :
    lint_lines [c6img] = [c6issue] ∧ lint_lines [c6ok] = [] := by
  constructor <;> decide

/-! ## Claim C7: ordering of the finding sequence -/

/-- C7: in a full lint pass's output, every adjacent pair of findings has
strictly increasing line number, or equal line number and non-decreasing
column. -/
theorem C7_output_ordered (lines : List Line) :
    (lint_lines lines).Chain' (fun a b =>
      a.line_number < b.line_number
        ∨ (a.line_number = b.line_number ∧ a.column ≤ b.column)) := by
  have htrans : ∀ a b c : LintIssue, issueLE a b = true → issueLE b c = true →
      issueLE a c = true := by
    intro a b c hab hbc
    simp only [issueLE, Bool.or_eq_true, decide_eq_true_eq, Bool.and_eq_true,
      beq_iff_eq] at hab hbc ⊢
    omega
  have htotal : ∀ a b : LintIssue, issueLE a b = true ∨ issueLE b a = true := by
    intro a b
    simp only [issueLE, Bool.or_eq_true, decide_eq_true_eq, Bool.and_eq_true,
      beq_iff_eq]
    omega
  haveI : IsTotal LintIssue (fun a b => issueLE a b = true) := ⟨htotal⟩
  haveI : IsTrans LintIssue (fun a b => issueLE a b = true) :=
    ⟨fun a b c => htrans a b c⟩
  have hs := List.sorted_insertionSort (fun a b => issueLE a b = true)
    (runAllChecks lines)
  rw [show lint_lines lines
      = (runAllChecks lines).insertionSort (fun a b => issueLE a b = true)
      from rfl]
  refine List.Pairwise.chain' ?_
  refine List.Pairwise.imp ?_ hs
  intro a b hab
  simp only [issueLE, Bool.or_eq_true, decide_eq_true_eq, Bool.and_eq_true,
    beq_iff_eq] at hab
  omega

/-! ## Claim C8: severity-filter monotonicity -/

/-- C8: on any lint pass's findings, the set retained at minimum severity
`warning` (level 2) is a subset of the set retained at `info` (level 1), and
the set retained at `error` (level 3) is a subset of that at `warning`. -/
theorem C8_filter_monotone (lines : List Line) :
    filterMin 2 (lint_lines lines) ⊆ filterMin 1 (lint_lines lines)
      ∧ filterMin 3 (lint_lines lines) ⊆ filterMin 2 (lint_lines lines) := by
  constructor <;>
  · intro x hx
    simp only [filterMin, List.mem_filter, decide_eq_true_eq] at hx ⊢
    exact ⟨hx.1, by omega⟩

/-! ## Claim C10: report totals -/

/-- The three severity counters partition the findings. -/
theorem countP_severity_split (issues : List LintIssue) :
    issues.countP (fun i => i.severity == .error)
        + issues.countP (fun i => i.severity == .warning)
        + issues.countP (fun i => i.severity == .info)
      = issues.length := by
  induction issues with
  | nil => rfl
  | cons x xs ih =>
    simp only [List.countP_cons, List.length_cons]
    cases hx : x.severity <;> simp [hx] <;> omega

/-- A `rule_counts` update adds exactly one to the total of the counts. -/
theorem sum_bumpRule (rc : List (String × Nat)) (r : String) :
    ((bumpRule rc r).map Prod.snd).sum = (rc.map Prod.snd).sum + 1 := by
  induction rc with
  | nil => rfl
  | cons kv rest ih =>
    by_cases h : kv.1 = r
    · simp [bumpRule, h]
      omega
    · simp only [bumpRule, if_neg h, List.map_cons, List.sum_cons, ih]
      omega

/-- Accumulating `rule_counts` over the findings adds their number to the
total of the counts. -/
theorem sum_foldl_bump (issues : List LintIssue) (rc : List (String × Nat)) :
    ((issues.foldl (fun rc i => bumpRule rc i.rule) rc).map Prod.snd).sum
      = (rc.map Prod.snd).sum + issues.length := by
  induction issues generalizing rc with
  | nil => simp
  | cons x xs ih =>
    simp only [List.foldl_cons, List.length_cons]
    rw [ih, sum_bumpRule]
    omega

/-- C10: in every report of `generate_report`, `total_issues` is the sum of
the `errors`, `warnings` and `info` counters, and the values of
`rule_counts` sum to `total_issues`. -/
theorem C10_report_totals (issues : List LintIssue) (filepath : String) :
    (generate_report issues filepath).total_issues
        = (generate_report issues filepath).errors
          + (generate_report issues filepath).warnings
          + (generate_report issues filepath).info
      ∧ ((generate_report issues filepath).rule_counts.map Prod.snd).sum
        = (generate_report issues filepath).total_issues := by
  constructor
  · show issues.length = _
    rw [← countP_severity_split issues]
    rfl
  · show ((ruleCounts issues).map Prod.snd).sum = issues.length
    rw [ruleCounts, sum_foldl_bump]
    simp

/-! ## Claim C4: the process exit status -/

/-- C4 counterexample input: one readable file whose single line produces a
(retained) Error finding. -/
def c4file : FileEntry := .readable "a.md" ["![](photo.png)".data]

set_option maxHeartbeats 4000000 in
/-- C4 is false as stated: with `--summary` the `exit_code = 1` assignment is
never reached (it sits inside the `if not args.summary:` block), so a run in
summary-only mode exits 0 although a retained finding has Error severity. -/
theorem C4_counterexample :
    mainExitCode true 1 [c4file] = 0
      ∧ (filterMin 1 (lint_lines ["![](photo.png)".data])).any
          (fun i => i.severity == .error) = true := by
  constructor <;> decide

/-- Whether a processed file retains an Error finding under the filter
(`false` for a skipped missing path). -/
def hasRetainedError (minSeverity : Nat) (f : FileEntry) : Bool :=
  match processFile f with
  | none => false
  | some issues =>
    (filterMin minSeverity issues).any (fun i => i.severity == .error)

/-- With `--summary` off, the exit code is 1 exactly when some processed file
retains an Error finding, else 0. -/
theorem mainExitCode_false_eq (minSeverity : Nat) (files : List FileEntry) :
    mainExitCode false minSeverity files
      = if files.any (hasRetainedError minSeverity) then 1 else 0 := by
  suffices h : ∀ c : Nat,
      files.foldl
        (fun code f =>
          match processFile f with
          | none => code
          | some issues =>
            if !false
                && (filterMin minSeverity issues).any
                      (fun i => i.severity == .error) then 1
            else code)
        c = if files.any (hasRetainedError minSeverity) then 1 else c by
    exact h 0
  intro c
  induction files generalizing c with
  | nil => simp
  | cons f rest ih =>
    simp only [List.foldl_cons, List.any_cons]
    rw [ih]
    cases hpf : processFile f with
    | none => simp [hasRetainedError, hpf]
    | some issues =>
      by_cases ha : (filterMin minSeverity issues).any
          (fun i => i.severity == .error) = true
      · simp [hasRetainedError, hpf, ha]
      · simp [hasRetainedError, hpf, ha]

/-- C4 amended: the exit status is non-zero iff summary-only mode is off and
some processed file has a retained (post-filter) Error finding; with
`--summary` the exit status is always zero (see the counterexample). -/
theorem C4_exit_status (minSeverity : Nat) (files : List FileEntry) :
    mainExitCode false minSeverity files ≠ 0
      ↔ files.any (hasRetainedError minSeverity) = true := by
  rw [mainExitCode_false_eq]
  by_cases h : files.any (hasRetainedError minSeverity) = true <;> simp [h]

/-! ## Claim C5: file access failures -/

/-- C5 counterexample input: a missing path. -/
def c5missingFile : FileEntry := .missing "missing.md"

/-- C5 is false as stated for missing files: `main` tests `path.exists()` and
skips a missing path with a console notice before `lint_file` ever runs, so
no line-0 Error finding is recorded (no report at all) and the exit status
stays 0. -/
theorem C5_counterexample :
    mainReports 1 [c5missingFile] = []
      ∧ mainExitCode false 1 [c5missingFile] = 0 :=
  ⟨rfl, rfl⟩

/-- C5 amended: an unreadable file (present, but `open` raises) is recorded
as a single synthetic line-0 Error finding with the `file-read` rule carrying
the underlying error description; processing continues with the next files;
and, with summary-only mode off, the run exits non-zero whenever Error
severity is retained under the active filter (`minSeverity ≤ 3`).  A missing
path, by contrast, is skipped with no finding (see the counterexample). -/
theorem C5_read_failure (name err : String) (minSeverity : Nat)
    (rest : List FileEntry) (hm : minSeverity ≤ 3) :
    processFile (.unreadable name err) = some [fileReadIssue err]
      ∧ (fileReadIssue err).line_number = 0
      ∧ (fileReadIssue err).severity = .error
      ∧ (fileReadIssue err).rule = "file-read"
      ∧ (fileReadIssue err).message = "Error reading file: " ++ err
      ∧ mainReports minSeverity (.unreadable name err :: rest)
          = generate_report (filterMin minSeverity [fileReadIssue err]) name
            :: mainReports minSeverity rest
      ∧ mainExitCode false minSeverity (.unreadable name err :: rest) = 1 := by
    refine ⟨rfl, rfl, rfl, rfl, rfl, rfl, ?_⟩
    rw [mainExitCode_false_eq]
    have hhead : hasRetainedError minSeverity (.unreadable name err) = true := by
      simp [hasRetainedError, processFile, lint_file, filterMin, fileReadIssue,
        Severity.level, hm]
    simp [hhead]

/-- Witness for C5 at a concrete unreadable file. -/
theorem C5_witness :
    (1 : Nat) ≤ 3
      ∧ mainExitCode false 1 [FileEntry.unreadable "a.md" "Permission denied"]
          = 1 :=
  ⟨by decide,
    (C5_read_failure "a.md" "Permission denied" 1 [] (by decide)).2.2.2.2.2.2⟩

/-! ## Claim C9: per-trigger multiplicity of the lexical checks -/

/-- A forbidden-phrase finding's message names its trigger. -/
theorem forbiddenEntry_message (line : Line) (pr : String × String)
    {iss : PreIssue} (h : iss ∈ forbiddenEntryIssues line pr) :
    iss.message = "Avoid '" ++ pr.1 ++ "'" := by
  unfold forbiddenEntryIssues at h
  cases hf : firstOccur pr.1.data (lower line) <;> rw [hf] at h <;> simp at h
  rw [h]

/-- One forbidden-phrase entry emits at most one finding per line. -/
theorem forbiddenEntry_length (line : Line) (pr : String × String) :
    (forbiddenEntryIssues line pr).length ≤ 1 := by
  unfold forbiddenEntryIssues
  cases firstOccur pr.1.data (lower line) <;> simp

/-- A forbidden-phrase finding's column is the first occurrence of its
trigger in the lowered line. -/
theorem forbiddenEntry_column (line : Line) (pr : String × String)
    {iss : PreIssue} (h : iss ∈ forbiddenEntryIssues line pr) :
    iss.column = (((firstOccur pr.1.data (lower line)).getD 0 : Nat) : Int) := by
  unfold forbiddenEntryIssues at h
  cases hf : firstOccur pr.1.data (lower line) <;> rw [hf] at h <;> simp at h
  rw [h]
  rfl

/-- A Latin-abbreviation finding's message names its trigger. -/
theorem latinEntry_message (line : Line) (pr : String × String)
    {iss : PreIssue} (h : iss ∈ latinEntryIssues line pr) :
    iss.message = "Avoid Latin abbreviation '" ++ pr.1 ++ "'" := by
  unfold latinEntryIssues at h
  cases hf : firstOccur pr.1.data (lower line) <;> rw [hf] at h <;> simp at h
  rw [h]

/-- One Latin-abbreviation entry emits at most one finding per line. -/
theorem latinEntry_length (line : Line) (pr : String × String) :
    (latinEntryIssues line pr).length ≤ 1 := by
  unfold latinEntryIssues
  cases firstOccur pr.1.data (lower line) <;> simp

/-- A Latin-abbreviation finding's column is the first occurrence of its
trigger in the lowered line. -/
theorem latinEntry_column (line : Line) (pr : String × String)
    {iss : PreIssue} (h : iss ∈ latinEntryIssues line pr) :
    iss.column = (((firstOccur pr.1.data (lower line)).getD 0 : Nat) : Int) := by
  unfold latinEntryIssues at h
  cases hf : firstOccur pr.1.data (lower line) <;> rw [hf] at h <;> simp at h
  rw [h]
  rfl

/-- Over a catalog whose per-entry messages are distinct, the findings
mentioning one catalog entry's message number at most one when each entry
emits at most one finding. -/
theorem flatMap_countP_message_le_one
    {catalog : List (String × String)}
    {entry : String × String → List PreIssue}
    {msgf : String × String → String}
    (hmsg : ∀ pr iss, iss ∈ entry pr → iss.message = msgf pr)
    (hlen : ∀ pr, (entry pr).length ≤ 1)
    (hnodup : (catalog.map msgf).Nodup)
    {pr : String × String} (hpr : pr ∈ catalog) :
    (catalog.flatMap entry).countP (fun iss => iss.message == msgf pr) ≤ 1 := by
  induction catalog with
  | nil => simp at hpr
  | cons x rest ih =>
    rw [List.flatMap_cons, List.countP_append]
    rw [List.map_cons, List.nodup_cons] at hnodup
    rcases List.mem_cons.mp hpr with heq | hmem
    · subst heq
      have h1 : (entry pr).countP (fun iss => iss.message == msgf pr) ≤ 1 :=
        le_trans (List.countP_le_length _) (hlen pr)
      have h2 : (rest.flatMap entry).countP
          (fun iss => iss.message == msgf pr) = 0 := by
        rw [List.countP_eq_zero]
        intro iss hiss
        obtain ⟨pr2, hpr2, hiss2⟩ := List.mem_flatMap.mp hiss
        rw [hmsg pr2 iss hiss2]
        simp only [beq_iff_eq]
        intro heq2
        exact hnodup.1 (by rw [← heq2]; exact List.mem_map_of_mem msgf hpr2)
      omega
    · have h1 : (entry x).countP (fun iss => iss.message == msgf pr) = 0 := by
        rw [List.countP_eq_zero]
        intro iss hiss
        rw [hmsg x iss hiss]
        simp only [beq_iff_eq]
        intro heq2
        exact hnodup.1 (by rw [heq2]; exact List.mem_map_of_mem msgf hmem)
      have h2 := ih hnodup.2 hmem
      omega

/-- Over a catalog whose per-entry messages are distinct, a finding carrying
one entry's message carries that entry's column. -/
theorem flatMap_column_of_message
    {catalog : List (String × String)}
    {entry : String × String → List PreIssue}
    {msgf : String × String → String} {colf : String × String → Int}
    (hmsg : ∀ pr iss, iss ∈ entry pr → iss.message = msgf pr)
    (hcol : ∀ pr iss, iss ∈ entry pr → iss.column = colf pr)
    (hnodup : (catalog.map msgf).Nodup)
    {pr : String × String} (hpr : pr ∈ catalog)
    {iss : PreIssue} (hiss : iss ∈ catalog.flatMap entry)
    (hm : iss.message = msgf pr) :
    iss.column = colf pr := by
  obtain ⟨pr2, hpr2, hiss2⟩ := List.mem_flatMap.mp hiss
  have heq : pr2 = pr :=
    List.inj_on_of_nodup_map hnodup hpr2 hpr
      (by rw [← hmsg pr2 iss hiss2, hm])
  rw [hcol pr2 iss hiss2, heq]

set_option maxHeartbeats 1000000 in
/-- C9: on any line body, the plain substring checks (forbidden phrases,
Latin abbreviations) emit at most one finding per catalog trigger, at the
column of the trigger's first occurrence in the lowered line; the
word-boundary regular-expression checks (preferred terminology,
contractions, inclusive language) emit exactly one finding per regex
occurrence, at the occurrence's start column.  (These line bodies run
exactly on the non-code lines, by `perLineCheck`.) -/
theorem C9_trigger_multiplicity :
    (∀ (line : Line) (pr : String × String), pr ∈ forbidden_phrases →
      (forbiddenLine line).countP
          (fun iss => iss.message == "Avoid '" ++ pr.1 ++ "'") ≤ 1
        ∧ ∀ iss ∈ forbiddenLine line,
            iss.message = "Avoid '" ++ pr.1 ++ "'" →
            iss.column
              = (((firstOccur pr.1.data (lower line)).getD 0 : Nat) : Int))
    ∧ (∀ (line : Line) (pr : String × String), pr ∈ latin_abbrev →
      (latinLine line).countP
          (fun iss =>
            iss.message == "Avoid Latin abbreviation '" ++ pr.1 ++ "'") ≤ 1
        ∧ ∀ iss ∈ latinLine line,
            iss.message = "Avoid Latin abbreviation '" ++ pr.1 ++ "'" →
            iss.column
              = (((firstOccur pr.1.data (lower line)).getD 0 : Nat) : Int))
    ∧ (∀ (line : Line) (inc cor : String),
        (preferredTermIssues line inc cor).map (fun iss => iss.column)
          = (reAll (wbTermTry inc.data (lower line)) line.length).map
              (fun m => (m.1 : Int)))
    ∧ (∀ line : Line,
        (contractionLine line).map (fun iss => iss.column)
          = (reAll (contractionTry (lower line)) line.length).map
              (fun m => (m.1 : Int)))
    ∧ (∀ (line : Line) (term alt : String),
        (inclusiveTermIssues line term alt).map (fun iss => iss.column)
          = (reAll (wbTermTry term.data (lower line)) line.length).map
              (fun m => (m.1 : Int))) := by
  have hnodupF :
      (forbidden_phrases.map (fun pr => "Avoid '" ++ pr.1 ++ "'")).Nodup := by
    decide
  have hnodupL :
      (latin_abbrev.map
        (fun pr => "Avoid Latin abbreviation '" ++ pr.1 ++ "'")).Nodup := by
    decide
  refine ⟨?_, ?_, ?_, ?_, ?_⟩
  · intro line pr hpr
    constructor
    · exact flatMap_countP_message_le_one
        (fun pr iss h => forbiddenEntry_message line pr h)
        (forbiddenEntry_length line) hnodupF hpr
    · intro iss hiss hm
      exact flatMap_column_of_message
        (fun pr iss h => forbiddenEntry_message line pr h)
        (fun pr iss h => forbiddenEntry_column line pr h)
        hnodupF hpr hiss hm
  · intro line pr hpr
    constructor
    · exact flatMap_countP_message_le_one
        (fun pr iss h => latinEntry_message line pr h)
        (latinEntry_length line) hnodupL hpr
    · intro iss hiss hm
      exact flatMap_column_of_message
        (fun pr iss h => latinEntry_message line pr h)
        (fun pr iss h => latinEntry_column line pr h)
        hnodupL hpr hiss hm
  · intro line inc cor
    simp [preferredTermIssues, List.map_map, Function.comp]
  · intro line
    simp [contractionLine, List.map_map, Function.comp]
  · intro line term alt
    simp [inclusiveTermIssues, List.map_map, Function.comp]

set_option maxHeartbeats 1600000 in
/-- Witness for C9 at the C3 scenario line and the trigger "please note". -/
theorem C9_witness :
    (("please note", "Note:") ∈ forbidden_phrases)
      ∧ (forbiddenLine c3line).countP
          (fun iss => iss.message == "Avoid '" ++ "please note" ++ "'") ≤ 1 :=
  ⟨by decide,
    (C9_trigger_multiplicity.1 c3line ("please note", "Note:") (by decide)).1⟩

end MMOS
